import Mathlib

/-!
# Verification of the Cursive application context (`src/lib.rs`)

A shallow embedding of the `Cursive` struct and its operations: screen
management, the global key-binding table, view lookup, theme reloading,
the draw pass, and the event loop (`run`).  Collaborator modules that are
not part of the studied source (the event type, the menu bar, the screen
stack, the theme loader, the terminal backend) are modelled from the
specification and kept abstract or parameterised wherever the claims
quantify over their behaviour.
-/

namespace Cursive

/-- Modelled from the spec: the theme is "an immutable value describing
colors/styles; opaque to the core beyond being clonable".  We model it as an
opaque wrapper around a natural number. -/
structure Theme where
  val : Nat
deriving DecidableEq, Repr

/-- Modelled from the spec: `theme::load_default()` produces "a built-in
default" theme; its content is irrelevant to the core. -/
def Theme.loadDefault : Theme := ⟨0⟩

/-- Modelled from the spec: the abstract input event type from the `event`
module ("character key, named key, resize signal, …"), with decidable
equality (the table keys on it) and a distinguished window-resize signal. -/
inductive Event where
  | windowResize
  | refresh
  | char (c : Char)
  | key (k : Nat)
deriving DecidableEq, Repr

/-- Modelled from the spec: the event-result value, "one of: *ignored* …
or *consumed* carrying an optional deferred callback".  Callbacks are
represented by identifiers (`Nat`); a semantics function interprets an
identifier as a state transformer when one is invoked. -/
inductive EventResult where
  | ignored
  | consumed (cb : Option Nat)
deriving DecidableEq, Repr

/-- Modelled from the spec: the overlay (menu bar) state visible to the core:
the `autohide` flag and the internal "has focus" flag set by a take-focus
operation and cleared on dismissal. -/
structure Menubar where
  autohide : Bool
  hasFocus : Bool
deriving DecidableEq, Repr

/-- Modelled from the spec: `Menubar::new()`; starts unfocused with autohide
enabled (the default is irrelevant to every claim, which quantify over it). -/
def Menubar.new : Menubar := { autohide := true, hasFocus := false }

/-- Modelled from the spec: `menubar.receive_events()` holds exactly when the
overlay is in its active (focus-stealing) mode. -/
def Menubar.receive_events (m : Menubar) : Bool := m.hasFocus

/-- Modelled from the spec: `menubar.visible()` — the bar is drawn when it is
not auto-hidden, or when it is actively focused. -/
def Menubar.visible (m : Menubar) : Bool := !m.autohide || m.hasFocus

/-- Modelled from the spec: one screen is "an ordered sequence of owned
views (layers)".  Layers are opaque identifiers here; the claims under study
do not inspect layer contents. -/
structure StackView where
  layers : List Nat
deriving DecidableEq, Repr

/-- Modelled from the spec: `StackView::new()` is an empty layer stack. -/
def StackView.new : StackView := ⟨[]⟩

/-- The `Cursive` struct of `src/lib.rs`: theme, screen list, global callback
table, menu bar, active-screen index and running flag.  The
`global_callbacks` field is Rust's `HashMap<Event, Callback>`, embedded as an
association list with map semantics (insert replaces the binding of an
existing key); callbacks are identifiers interpreted by an external
semantics. -/
structure State where
  theme : Theme
  screens : List StackView
  global_callbacks : List (Event × Nat)
  menubar : Menubar
  active_screen : Nat
  running : Bool
deriving DecidableEq, Repr

/-- `Cursive::new()`: default theme, one initial screen, empty callback
table, fresh menu bar, active screen 0, running. -/
def State.new : State :=
  { theme := Theme.loadDefault
    screens := [StackView.new]
    global_callbacks := []
    menubar := Menubar.new
    active_screen := 0
    running := true }

/-- `Cursive::add_screen`: appends a fresh screen and returns its id (the
previous length of the screen list). -/
def State.add_screen (c : State) : Nat × State :=
  (c.screens.length, { c with screens := c.screens ++ [StackView.new] })

/-- `Cursive::set_screen`: `none` models the panic on an out-of-range id
("Tried to set an invalid screen ID"); otherwise only the active-screen
index changes. -/
def State.set_screen (c : State) (screen_id : Nat) : Option State :=
  if screen_id ≥ c.screens.length then none
  else some { c with active_screen := screen_id }

/-- `Cursive::add_active_screen`: adds a screen and makes it active.  The
inner `set_screen` cannot fail (the fresh id is in range), so the `getD`
fallback is unreachable. -/
def State.add_active_screen (c : State) : Nat × State :=
  let p := c.add_screen
  (p.1, (p.2.set_screen p.1).getD p.2)

/-- One screen-management operation, for quantifying over call sequences. -/
inductive ScreenOp where
  | addScreen
  | addActiveScreen
  | setScreen (id : Nat)
deriving DecidableEq, Repr

/-- Apply one screen operation; an out-of-range `set_screen` leaves the state
unchanged (the panic mutates nothing). -/
def State.applyOp (c : State) (op : ScreenOp) : State :=
  match op with
  | .addScreen => c.add_screen.2
  | .addActiveScreen => c.add_active_screen.2
  | .setScreen id => (c.set_screen id).getD c

/-- Apply a sequence of screen operations in order. -/
def State.applyOps (c : State) (ops : List ScreenOp) : State :=
  ops.foldl State.applyOp c

/-- The active-screen invariant: the active index addresses a screen. -/
def State.activeOk (c : State) : Prop :=
  c.active_screen < c.screens.length

theorem applyOp_preserves (c : State) (op : ScreenOp) (h : c.activeOk) :
    (c.applyOp op).activeOk := by
  cases op with
  | addScreen =>
      simp only [State.applyOp, State.add_screen, State.activeOk] at *
      simp only [List.length_append, List.length_singleton]
      omega
  | addActiveScreen =>
      simp only [State.applyOp, State.add_active_screen, State.add_screen,
        State.set_screen, State.activeOk] at *
      simp only [List.length_append, List.length_singleton]
      split
      · omega
      · simp only [Option.getD_some]
        simp only [List.length_append, List.length_singleton]
        omega
  | setScreen id =>
      simp only [State.applyOp, State.set_screen, State.activeOk] at *
      split
      · simpa using h
      · next h2 =>
          simp only [Option.getD_some]
          omega

theorem applyOp_length_mono (c : State) (op : ScreenOp) :
    c.screens.length ≤ (c.applyOp op).screens.length := by
  cases op with
  | addScreen =>
      simp [State.applyOp, State.add_screen]
  | addActiveScreen =>
      simp only [State.applyOp, State.add_active_screen, State.add_screen,
        State.set_screen]
      split
      · simp
      · simp
  | setScreen id =>
      simp only [State.applyOp, State.set_screen]
      split
      · simp
      · simp

theorem applyOps_preserves (c : State) (ops : List ScreenOp) (h : c.activeOk) :
    (c.applyOps ops).activeOk := by
  induction ops generalizing c with
  | nil => exact h
  | cons op rest ih =>
      exact ih (c.applyOp op) (applyOp_preserves c op h)

theorem applyOps_length_mono (c : State) (ops : List ScreenOp) :
    c.screens.length ≤ (c.applyOps ops).screens.length := by
  induction ops generalizing c with
  | nil => exact Nat.le_refl _
  | cons op rest ih =>
      exact Nat.le_trans (applyOp_length_mono c op) (ih (c.applyOp op))

/-! ## Global callback table

`global_callbacks` is Rust's `HashMap<Event, Callback>`; the two operations
the core uses are `insert` (which replaces the value bound to an existing
key) and `get`.  We embed them on the association list. -/

/-- `HashMap::insert`: binds `e` to `cb`, dropping any previous binding of
`e`; every other binding is kept. -/
def insertCb (tbl : List (Event × Nat)) (e : Event) (cb : Nat) :
    List (Event × Nat) :=
  (e, cb) :: tbl.filter (fun p => !decide (p.1 = e))

/-- `HashMap::get`: the callback bound to `e`, if any. -/
def lookupCb (tbl : List (Event × Nat)) (e : Event) : Option Nat :=
  (tbl.find? (fun p => decide (p.1 = e))).map (·.2)

/-- `Cursive::add_global_callback`: inserts into the global table;
`HashMap::insert` makes a duplicate registration replace the old one. -/
def State.add_global_callback (c : State) (event : Event) (cb : Nat) : State :=
  { c with global_callbacks := insertCb c.global_callbacks event cb }

theorem lookupCb_insertCb_self (tbl : List (Event × Nat)) (e : Event)
    (cb : Nat) : lookupCb (insertCb tbl e cb) e = some cb := by
  simp [lookupCb, insertCb, List.find?]

theorem find?_filter_of_ne (tbl : List (Event × Nat)) (e e' : Event)
    (h : e' ≠ e) :
    (tbl.filter (fun p => !decide (p.1 = e))).find?
        (fun p => decide (p.1 = e')) =
      tbl.find? (fun p => decide (p.1 = e')) := by
  induction tbl with
  | nil => rfl
  | cons p rest ih =>
      have hee' : ¬ e = e' := fun hcon => h hcon.symm
      by_cases hpe : p.1 = e
      · have hpe' : ¬ p.1 = e' := by
          intro hcon; exact h (hcon ▸ hpe ▸ rfl)
        simp [List.filter, List.find?, hpe, hpe', hee', ih]
      · by_cases hpe' : p.1 = e'
        · simp [List.filter, List.find?, hpe, hpe', h]
        · simp [List.filter, List.find?, hpe, hpe', ih]

theorem lookupCb_insertCb_other (tbl : List (Event × Nat)) (e e' : Event)
    (cb : Nat) (h : e' ≠ e) :
    lookupCb (insertCb tbl e cb) e' = lookupCb tbl e' := by
  simp only [lookupCb, insertCb, List.find?]
  have : decide (e = e') = false := by
    simp only [decide_eq_false_iff_not]
    intro hcon; exact h hcon.symm
  rw [this]
  rw [find?_filter_of_ne tbl e e' h]

/-! ## View lookup (`find`, `find_id`)

`Cursive::find` delegates to `find_any` (the active screen's type-erased
search, returning `&mut Any`) and then performs a checked downcast to the
caller's expected type. -/

/-- Modelled from the spec: a type-erased mutable reference ("an
any-capable reference type carrying a runtime type tag"): a runtime type
tag plus an opaque payload. -/
structure AnyView where
  tag : Nat
  payload : Nat
deriving DecidableEq, Repr

/-- Rust's `Any::downcast_mut::<V>`: succeeds exactly when the dynamic type
tag matches the expected type. -/
def downcast_mut (expected : Nat) (a : AnyView) : Option Nat :=
  if a.tag = expected then some a.payload else none

/-- Modelled from the spec: a selector is "a query (by name or by structural
predicate)"; only the by-name form is exercised here. -/
inductive Selector where
  | id (s : String)
deriving DecidableEq, Repr

/-- `Cursive::find::<V>`: runs the screen's type-erased search (`find_any`,
passed in as the external collaborator it is) and downcasts the result;
`none` on no match or on type mismatch. -/
def State.find (findAny : Selector → Option AnyView) (expected : Nat)
    (sel : Selector) : Option Nat :=
  match findAny sel with
  | none => none
  | some b => downcast_mut expected b

/-- `Cursive::find_id::<V>`: convenience wrapper, `find` with
`Selector::Id`. -/
def State.find_id (findAny : Selector → Option AnyView) (expected : Nat)
    (id : String) : Option Nat :=
  State.find findAny expected (Selector.id id)

/-! ## Theme reloading -/

/-- Modelled from the spec: the distinguishable error value of the theme
loader ("malformed theme source … reported to the caller as a
distinguishable error value"). -/
structure ThemeError where
  msg : String
deriving DecidableEq, Repr

/-- `Cursive::load_theme`: delegates to the external loader
(`theme::load_theme`, passed in as a function); `try!` propagates the error
without assigning, so the state is returned untouched on failure and the
theme is replaced wholesale on success. -/
def State.load_theme (loader : String → Except ThemeError Theme) (c : State)
    (content : String) : Except ThemeError Unit × State :=
  match loader content with
  | .error e => (.error e, c)
  | .ok t => (.ok (), { c with theme := t })

/-- `Cursive::load_theme_file`: same shape, delegating to
`theme::load_theme_file` on a path. -/
def State.load_theme_file (loader : String → Except ThemeError Theme)
    (c : State) (filename : String) : Except ThemeError Unit × State :=
  match loader filename with
  | .error e => (.error e, c)
  | .ok t => (.ok (), { c with theme := t })

/-! ## The draw pass

`Cursive::draw` builds a root printer from the screen size and the theme,
optionally draws the menu bar, and draws the active screen into a
sub-printer.  We record the observable outputs of the pass: whether the
menu bar was drawn and with which focus flag, and the offset and focus flag
of the screen's sub-printer. -/

/-- The observable shape of one `Cursive::draw` pass: which sub-printers
were created and with which offset/focus arguments. -/
structure DrawInfo where
  menubarDrawn : Bool
  menubarFocused : Bool
  screenOffset : Nat × Nat
  screenFocused : Bool
deriving DecidableEq, Repr

/-- `Cursive::draw` (the printer-call structure): `offset = if autohide
then 0 else 1`; the menu bar is drawn iff visible, its sub-printer focused
iff `receive_events`; the screen's sub-printer sits at `(0, offset)` and is
focused iff the menu bar is not receiving events. -/
def State.drawInfo (c : State) : DrawInfo :=
  let offset := if c.menubar.autohide then 0 else 1
  let selected := c.menubar.receive_events
  { menubarDrawn := c.menubar.visible
    menubarFocused := c.menubar.receive_events
    screenOffset := (0, offset)
    screenFocused := !selected }

/-! ## The event loop (`run`)

One iteration: layout (querying the backend screen size), draw, poll one
event, clear on resize, then dispatch with menu-bar priority.  The backend
and the collaborator `on_event` methods are external: the backend is a
finite stream of (size, event) pairs (the real loop blocks forever on an
exhausted stream, so a finite prefix of the behaviour is modelled), and the
menu bar's and screen's event handlers, plus the interpretation of callback
identifiers, are parameters gathered in `DispatchEnv`. -/

/-- Backend data consumed by one loop iteration: the screen size the
backend reports this iteration and the event `poll_event` returns. -/
structure IterInput where
  size : Nat × Nat
  event : Event
deriving DecidableEq, Repr

/-- The external collaborators of the dispatch step:
`menubar.on_event` (mutating the menu bar), the active screen's `on_event`
(mutating that screen), and the semantics of callback identifiers (a
callback takes `&mut Cursive`). -/
structure DispatchEnv where
  menubarOnEvent : Menubar → Event → EventResult × Menubar
  screenOnEvent : StackView → Event → EventResult × StackView
  sem : Nat → State → State

/-- Everything the loop observably does, in order. -/
inductive Action where
  | layout (size : Nat × Nat)
  | draw
  | poll (e : Event)
  | clear
  | offeredMenubar
  | offeredScreen
  | invokedMenubarCb (cb : Nat)
  | invokedScreenCb (cb : Nat)
  | invokedGlobalCb (cb : Nat)
deriving DecidableEq, Repr

/-- `Cursive::screen_mut` (read side): the active screen.  The `unwrap`
cannot panic while the active-screen invariant holds; the default is the
unreachable branch. -/
def State.screen (c : State) : StackView :=
  c.screens.getD c.active_screen StackView.new

/-- Write-back of a mutation made through `screen_mut`. -/
def State.setScreenView (c : State) (sv : StackView) : State :=
  { c with screens := c.screens.set c.active_screen sv }

/-- `Cursive::on_event` (the private fallback handler, lines 392–399):
looks the event up in the global table; a missing binding returns silently,
a present one is invoked once.  Returns the new state and the list of
global callbacks invoked. -/
def State.on_event (sem : Nat → State → State) (c : State) (event : Event) :
    State × List Nat :=
  match lookupCb c.global_callbacks event with
  | none => (c, [])
  | some cb => (sem cb c, [cb])

/-- The dispatch block of one `run` iteration (lines 476–489): if the menu
bar is receiving events it alone is offered the event (a consumed callback
runs, anything else is dropped); otherwise the active screen is offered the
event, and only an `Ignored` result falls through to the global table. -/
def State.dispatch (env : DispatchEnv) (c : State) (event : Event) :
    State × List Action :=
  if c.menubar.receive_events then
    let r := env.menubarOnEvent c.menubar event
    let c1 := { c with menubar := r.2 }
    match r.1 with
    | .consumed (some cb) =>
        (env.sem cb c1, [.offeredMenubar, .invokedMenubarCb cb])
    | _ => (c1, [.offeredMenubar])
  else
    let r := env.screenOnEvent c.screen event
    let c1 := c.setScreenView r.2
    match r.1 with
    | .ignored =>
        let p := c1.on_event env.sem event
        (p.1, .offeredScreen :: p.2.map Action.invokedGlobalCb)
    | .consumed none => (c1, [.offeredScreen])
    | .consumed (some cb) =>
        (env.sem cb c1, [.offeredScreen, .invokedScreenCb cb])

/-- The non-dispatch prefix of one iteration: layout against the freshly
queried size, draw, poll, and a backend clear when the polled event is the
resize signal. -/
def iterPrefix (inp : IterInput) : List Action :=
  [Action.layout inp.size, Action.draw, Action.poll inp.event]
    ++ (if inp.event = Event.windowResize then [Action.clear] else [])

/-- `Cursive::run`: `while self.running { layout; draw; poll; clear on
resize; dispatch }`, driven by a finite backend stream.  Returns the final
state and the trace of actions. -/
def State.run (env : DispatchEnv) : State → List IterInput →
    State × List Action
  | c, [] => (c, [])
  | c, inp :: rest =>
    if c.running then
      let p := c.dispatch env inp.event
      let q := State.run env p.1 rest
      (q.1, iterPrefix inp ++ p.2 ++ q.2)
    else (c, [])

/-- `Cursive::quit`: clears the running flag, nothing else. -/
def State.quit (c : State) : State := { c with running := false }

theorem run_not_running (env : DispatchEnv) (c : State)
    (stream : List IterInput) (h : c.running = false) :
    c.run env stream = (c, []) := by
  cases stream with
  | nil => rfl
  | cons inp rest => simp [State.run, h]

theorem run_cons (env : DispatchEnv) (c : State) (inp : IterInput)
    (rest : List IterInput) (h : c.running = true) :
    c.run env (inp :: rest) =
      (((c.dispatch env inp.event).1.run env rest).1,
        iterPrefix inp ++ (c.dispatch env inp.event).2 ++
          ((c.dispatch env inp.event).1.run env rest).2) := by
  show (State.run env c (inp :: rest)) = _
  simp only [State.run]
  rw [if_pos h]

theorem dispatch_menubar_receiving (env : DispatchEnv) (c : State)
    (event : Event) (h : c.menubar.receive_events = true) :
    c.dispatch env event =
      match (env.menubarOnEvent c.menubar event).1 with
      | EventResult.consumed (some cb) =>
          (env.sem cb
              { c with menubar := (env.menubarOnEvent c.menubar event).2 },
            [Action.offeredMenubar, Action.invokedMenubarCb cb])
      | _ => ({ c with menubar := (env.menubarOnEvent c.menubar event).2 },
          [Action.offeredMenubar]) := by
  unfold State.dispatch
  rw [if_pos h]

/-- Backend-phase actions: the layout/draw/poll/clear steps of the loop, as
opposed to event offers and callback invocations. -/
def Action.isBackendPhase : Action → Bool
  | .layout _ => true
  | .draw => true
  | .poll _ => true
  | .clear => true
  | _ => false

/-- Recognizes a poll action. -/
def Action.isPoll : Action → Bool
  | .poll _ => true
  | _ => false

/-- Recognizes a layout action. -/
def Action.isLayout : Action → Bool
  | .layout _ => true
  | _ => false

theorem dispatch_no_backendPhase (env : DispatchEnv) (c : State)
    (event : Event) :
    ∀ a ∈ (c.dispatch env event).2, a.isBackendPhase = false := by
  intro a ha
  simp only [State.dispatch] at ha
  split at ha
  · split at ha <;> simp only [List.mem_cons, List.mem_singleton] at ha <;>
      rcases ha with rfl | ha <;>
      first
        | rfl
        | (rcases ha with rfl | ha <;> first | rfl | cases ha)
  · split at ha
    · simp only [State.on_event] at ha
      rcases hl : lookupCb (c.setScreenView
          (env.screenOnEvent c.screen event).2).global_callbacks event with
        _ | cb <;> rw [hl] at ha <;>
        simp only [List.map, List.mem_cons, List.mem_singleton,
          List.not_mem_nil] at ha
      · rcases ha with rfl | ha
        · rfl
        · cases ha
      · rcases ha with rfl | rfl | ha
        · rfl
        · rfl
        · cases ha
    · simp only [List.mem_singleton] at ha
      subst ha; rfl
    · simp only [List.mem_cons, List.mem_singleton] at ha
      rcases ha with rfl | rfl | ha
      · rfl
      · rfl
      · cases ha

/-! ## Claim theorems -/

/-- C1: starting from a freshly constructed context (one screen, active
index 0), every sequence of `add_screen` / `add_active_screen` /
`set_screen` operations keeps the active-screen index a valid index into
the screen list, and the screen list never shrinks under further
operations. -/
theorem claim1_active_screen_invariant (ops : List ScreenOp) :
    (State.new.applyOps ops).activeOk ∧
    ∀ suf : List ScreenOp,
      (State.new.applyOps ops).screens.length ≤
        (State.new.applyOps (ops ++ suf)).screens.length := by
  constructor
  · refine applyOps_preserves _ _ ?_
    simp [State.new, State.activeOk, StackView.new]
  · intro suf
    show _ ≤ (List.foldl State.applyOp State.new (ops ++ suf)).screens.length
    rw [List.foldl_append]
    exact applyOps_length_mono _ suf

/-- C3: `set_screen` with an out-of-range id reports the error (the panic,
modelled as `none`) and produces no mutated state; with a valid id it
returns the context with only the active-screen index changed. -/
theorem claim3_set_screen_bounds (c : State) (screen_id : Nat) :
    c.set_screen screen_id =
      if screen_id < c.screens.length
      then some { c with active_screen := screen_id }
      else none := by
  unfold State.set_screen
  rcases Nat.lt_or_ge screen_id c.screens.length with h | h
  · simp [h, Nat.not_le.mpr h]
  · simp [h, Nat.not_lt.mpr h]

/-- C5: with `autohide = false` the active screen's sub-printer is offset
down by exactly one row; with `autohide = true` and the overlay not
receiving events the offset is zero; and the screen's sub-printer is
focused exactly when the overlay is not receiving events. -/
theorem claim5_autohide_row_reservation (c : State) :
    (c.menubar.autohide = false → c.drawInfo.screenOffset = (0, 1)) ∧
    (c.menubar.autohide = true → c.menubar.receive_events = false →
      c.drawInfo.screenOffset = (0, 0)) ∧
    c.drawInfo.screenFocused = !c.menubar.receive_events := by
  refine ⟨fun h => ?_, fun h _ => ?_, rfl⟩
  · simp [State.drawInfo, h]
  · simp [State.drawInfo, h]

/-- A context whose menu bar does not auto-hide (for the C5 witness). -/
def stateAutohideOff : State :=
  { State.new with menubar := { autohide := false, hasFocus := false } }

/-- A context whose menu bar auto-hides and is unfocused (C5 witness). -/
def stateAutohideOn : State :=
  { State.new with menubar := { autohide := true, hasFocus := false } }

theorem claim5_autohide_row_reservation_witness :
    stateAutohideOff.drawInfo.screenOffset = (0, 1) ∧
    stateAutohideOn.drawInfo.screenOffset = (0, 0) :=
  ⟨(claim5_autohide_row_reservation stateAutohideOff).1 rfl,
   (claim5_autohide_row_reservation stateAutohideOn).2.1 rfl rfl⟩

/-- C6: after `add_global_callback e cb1` then `add_global_callback e cb2`,
only `cb2` is bound to `e`: an unconsumed dispatch of `e` (the fallback
handler `on_event`) invokes exactly `cb2` and, when the two callbacks
differ, never `cb1`; the binding of every other key is unchanged. -/
theorem claim6_duplicate_binding (c : State) (e : Event) (cb1 cb2 : Nat)
    (sem : Nat → State → State) :
    lookupCb ((c.add_global_callback e cb1).add_global_callback e
        cb2).global_callbacks e = some cb2 ∧
    (((c.add_global_callback e cb1).add_global_callback e cb2).on_event
        sem e).2 = [cb2] ∧
    (cb1 ≠ cb2 →
      cb1 ∉ (((c.add_global_callback e cb1).add_global_callback e
        cb2).on_event sem e).2) ∧
    ∀ e', e' ≠ e →
      lookupCb ((c.add_global_callback e cb1).add_global_callback e
          cb2).global_callbacks e' =
        lookupCb c.global_callbacks e' := by
  have hself :
      lookupCb ((c.add_global_callback e cb1).add_global_callback e
        cb2).global_callbacks e = some cb2 := by
    simp only [State.add_global_callback]
    exact lookupCb_insertCb_self _ e cb2
  refine ⟨hself, ?_, ?_, ?_⟩
  · simp [State.on_event, hself]
  · intro hne
    simp [State.on_event, hself, List.mem_singleton]
    exact hne
  · intro e' hne2
    simp only [State.add_global_callback]
    rw [lookupCb_insertCb_other _ e e' cb2 hne2,
      lookupCb_insertCb_other _ e e' cb1 hne2]

theorem claim6_duplicate_binding_witness :
    lookupCb ((State.new.add_global_callback (Event.char 'q')
        1).add_global_callback (Event.char 'q') 2).global_callbacks
      (Event.char 'q') = some 2 ∧
    1 ∉ (((State.new.add_global_callback (Event.char 'q')
        1).add_global_callback (Event.char 'q') 2).on_event
      (fun _ s => s) (Event.char 'q')).2 ∧
    lookupCb ((State.new.add_global_callback (Event.char 'q')
        1).add_global_callback (Event.char 'q') 2).global_callbacks
      (Event.char 'x') = lookupCb State.new.global_callbacks
      (Event.char 'x') :=
  ⟨(claim6_duplicate_binding State.new (Event.char 'q') 1 2
      (fun _ s => s)).1,
   (claim6_duplicate_binding State.new (Event.char 'q') 1 2
      (fun _ s => s)).2.2.1 (by decide),
   (claim6_duplicate_binding State.new (Event.char 'q') 1 2
      (fun _ s => s)).2.2.2 (Event.char 'x') (by decide)⟩

/-- C7: theme reloading is atomic: when the external loader fails, both
`load_theme` and `load_theme_file` return the distinguishable error and
leave the context exactly as it was; when it succeeds, the theme is
replaced wholesale and nothing else changes.  (The embedding is a total
function, so no input panics.) -/
theorem claim7_theme_reload_atomic
    (loader loaderF : String → Except ThemeError Theme) (c : State)
    (content filename : String) :
    (∀ e, loader content = .error e →
      c.load_theme loader content = (.error e, c)) ∧
    (∀ t, loader content = .ok t →
      c.load_theme loader content = (.ok (), { c with theme := t })) ∧
    (∀ e, loaderF filename = .error e →
      c.load_theme_file loaderF filename = (.error e, c)) ∧
    (∀ t, loaderF filename = .ok t →
      c.load_theme_file loaderF filename =
        (.ok (), { c with theme := t })) := by
  refine ⟨fun e h => ?_, fun t h => ?_, fun e h => ?_, fun t h => ?_⟩ <;>
    simp [State.load_theme, State.load_theme_file, h]

/-- A theme loader that always fails (for the C7 witness). -/
def loaderBad : String → Except ThemeError Theme :=
  fun _ => .error ⟨"parse error"⟩

/-- A theme loader that always succeeds (for the C7 witness). -/
def loaderGood : String → Except ThemeError Theme :=
  fun _ => .ok ⟨7⟩

theorem claim7_theme_reload_atomic_witness :
    State.new.load_theme loaderBad "x =" =
      (.error ⟨"parse error"⟩, State.new) ∧
    State.new.load_theme loaderGood "ok" =
      (.ok (), { State.new with theme := ⟨7⟩ }) ∧
    State.new.load_theme_file loaderBad "bad.toml" =
      (.error ⟨"parse error"⟩, State.new) ∧
    State.new.load_theme_file loaderGood "good.toml" =
      (.ok (), { State.new with theme := ⟨7⟩ }) :=
  ⟨(claim7_theme_reload_atomic loaderBad loaderGood State.new "x ="
      "good.toml").1 ⟨"parse error"⟩ rfl,
   (claim7_theme_reload_atomic loaderGood loaderBad State.new "ok"
      "bad.toml").2.1 ⟨7⟩ rfl,
   (claim7_theme_reload_atomic loaderGood loaderBad State.new "ok"
      "bad.toml").2.2.1 ⟨"parse error"⟩ rfl,
   (claim7_theme_reload_atomic loaderBad loaderGood State.new "x ="
      "good.toml").2.2.2 ⟨7⟩ rfl⟩

/-- C8: `find` is type-safe: when the underlying search returns a view with
dynamic type tag `A`, querying with a distinct expected type `B` returns
`none` (no crash), querying with `A` returns the view; when the search
finds nothing, `find` returns `none` for every expected type. -/
theorem claim8_lookup_type_safety (findAny : Selector → Option AnyView)
    (sel : Selector) (A B v : Nat) :
    (findAny sel = some ⟨A, v⟩ → B ≠ A →
      State.find findAny B sel = none) ∧
    (findAny sel = some ⟨A, v⟩ → State.find findAny A sel = some v) ∧
    (findAny sel = none → ∀ V, State.find findAny V sel = none) := by
  refine ⟨fun h hne => ?_, fun h => ?_, fun h V => ?_⟩
  · have hAB : ¬ A = B := fun hc => hne hc.symm
    simp [State.find, h, downcast_mut, hAB]
  · simp [State.find, h, downcast_mut]
  · simp [State.find, h]

/-- A search that finds a view with type tag 0 and payload 7 (C8
witness). -/
def findAnyTagZero : Selector → Option AnyView :=
  fun _ => some ⟨0, 7⟩

/-- A search that finds nothing (C8 witness). -/
def findAnyNone : Selector → Option AnyView :=
  fun _ => none

theorem claim8_lookup_type_safety_witness :
    State.find findAnyTagZero 1 (Selector.id "text") = none ∧
    State.find findAnyTagZero 0 (Selector.id "text") = some 7 ∧
    State.find findAnyNone 0 (Selector.id "text") = none :=
  ⟨(claim8_lookup_type_safety findAnyTagZero (Selector.id "text") 0 1
      7).1 rfl (by decide),
   (claim8_lookup_type_safety findAnyTagZero (Selector.id "text") 0 1
      7).2.1 rfl,
   (claim8_lookup_type_safety findAnyNone (Selector.id "text") 0 1
      7).2.2 rfl 0⟩

/-- C10: `find_id` is observationally equal to `find` applied to
`Selector::Id`: the convenience wrapper adds nothing. -/
theorem claim10_find_id_refines_find (findAny : Selector → Option AnyView)
    (expected : Nat) (id : String) :
    State.find_id findAny expected id =
      State.find findAny expected (Selector.id id) := rfl

/-- C2: when the overlay is receiving events, the dispatch trace never
offers the event to the active screen and never invokes a global-table
callback (whatever the overlay's own result is); when the overlay is
inactive and the screen ignores the event, the trace is exactly one offer
to the screen followed by exactly one invocation of the bound global
callback when one exists, and nothing when the binding is missing. -/
theorem claim2_event_dispatch_priority (env : DispatchEnv) (c : State)
    (event : Event) :
    (c.menubar.receive_events = true →
      Action.offeredScreen ∉ (c.dispatch env event).2 ∧
      ∀ cb, Action.invokedGlobalCb cb ∉ (c.dispatch env event).2) ∧
    (c.menubar.receive_events = false →
      (env.screenOnEvent c.screen event).1 = EventResult.ignored →
      (c.dispatch env event).2 =
        match lookupCb c.global_callbacks event with
        | some cb => [Action.offeredScreen, Action.invokedGlobalCb cb]
        | none => [Action.offeredScreen]) := by
  constructor
  · intro h
    have hmem : ∀ a ∈ (c.dispatch env event).2,
        a = Action.offeredMenubar ∨
          ∃ cb, a = Action.invokedMenubarCb cb := by
      intro a ha
      rw [dispatch_menubar_receiving env c event h] at ha
      split at ha
      · simp only [List.mem_cons, List.mem_singleton,
          List.not_mem_nil, or_false] at ha
        rcases ha with rfl | rfl
        · exact Or.inl rfl
        · exact Or.inr ⟨_, rfl⟩
      · simp only [List.mem_singleton] at ha
        exact Or.inl ha
    constructor
    · intro hmem2
      rcases hmem _ hmem2 with hcon | ⟨cb, hcon⟩ <;> cases hcon
    · intro cb hmem2
      rcases hmem _ hmem2 with hcon | ⟨cb2, hcon⟩ <;> cases hcon
  · intro h h2
    unfold State.dispatch
    rw [if_neg (by simp [h])]
    simp only [h2, State.on_event, State.setScreenView]
    rcases hl : lookupCb c.global_callbacks event with _ | cb <;>
      simp [hl]

/-- A context with the overlay actively receiving events (C2 witness). -/
def stateMenuFocused : State :=
  { State.new with menubar := { autohide := true, hasFocus := true } }

/-- A dispatch environment whose collaborators ignore every event and whose
callback semantics is the identity (C2/C9 witnesses). -/
def envIgnore : DispatchEnv :=
  { menubarOnEvent := fun m _ => (EventResult.ignored, m)
    screenOnEvent := fun s _ => (EventResult.ignored, s)
    sem := fun _ s => s }

theorem claim2_event_dispatch_priority_witness :
    Action.offeredScreen ∉
      (stateMenuFocused.dispatch envIgnore (Event.char 'q')).2 ∧
    Action.invokedGlobalCb 0 ∉
      (stateMenuFocused.dispatch envIgnore (Event.char 'q')).2 ∧
    ((State.new.add_global_callback (Event.char 'q') 5).dispatch envIgnore
        (Event.char 'q')).2 =
      [Action.offeredScreen, Action.invokedGlobalCb 5] ∧
    (State.new.dispatch envIgnore (Event.char 'q')).2 =
      [Action.offeredScreen] :=
  ⟨((claim2_event_dispatch_priority envIgnore stateMenuFocused
      (Event.char 'q')).1 rfl).1,
   ((claim2_event_dispatch_priority envIgnore stateMenuFocused
      (Event.char 'q')).1 rfl).2 0,
   (claim2_event_dispatch_priority envIgnore
      (State.new.add_global_callback (Event.char 'q') 5)
      (Event.char 'q')).2 rfl rfl,
   (claim2_event_dispatch_priority envIgnore State.new
      (Event.char 'q')).2 rfl rfl⟩

/-- C4: when the dispatch of the current iteration leaves the running flag
false (a callback called `quit`), `run` produces exactly that iteration's
trace — the full layout/draw/poll prefix followed by the complete dispatch
trace — and stops in the state the dispatch produced; the whole trace holds
exactly one poll, one layout and one draw, so nothing further runs after
the iteration in which quit was called. -/
theorem claim4_quit_semantics (env : DispatchEnv) (c : State)
    (inp : IterInput) (rest : List IterInput) (h1 : c.running = true)
    (h2 : (c.dispatch env inp.event).1.running = false) :
    c.run env (inp :: rest) =
      ((c.dispatch env inp.event).1,
        iterPrefix inp ++ (c.dispatch env inp.event).2) ∧
    (c.run env (inp :: rest)).2.countP (fun a => a.isPoll) = 1 ∧
    (c.run env (inp :: rest)).2.countP (fun a => a.isLayout) = 1 ∧
    (c.run env (inp :: rest)).2.count Action.draw = 1 := by
  have hrun : c.run env (inp :: rest) =
      ((c.dispatch env inp.event).1,
        iterPrefix inp ++ (c.dispatch env inp.event).2) := by
    rw [run_cons env c inp rest h1, run_not_running env _ rest h2]
    simp
  have hphase := dispatch_no_backendPhase env c inp.event
  refine ⟨hrun, ?_, ?_, ?_⟩ <;> rw [hrun] <;>
    simp only [List.countP_append, List.count_append]
  · have hz : ((c.dispatch env inp.event).2.countP
        (fun a => a.isPoll)) = 0 := by
      refine List.countP_eq_zero.mpr fun a ha => ?_
      have := hphase a ha
      cases a <;> simp_all [Action.isBackendPhase, Action.isPoll]
    rw [hz]
    by_cases hres : inp.event = Event.windowResize <;>
      simp [iterPrefix, hres, Action.isPoll]
  · have hz : ((c.dispatch env inp.event).2.countP
        (fun a => a.isLayout)) = 0 := by
      refine List.countP_eq_zero.mpr fun a ha => ?_
      have := hphase a ha
      cases a <;> simp_all [Action.isBackendPhase, Action.isLayout]
    rw [hz]
    by_cases hres : inp.event = Event.windowResize <;>
      simp [iterPrefix, hres, Action.isLayout]
  · have hz : ((c.dispatch env inp.event).2.count Action.draw) = 0 := by
      refine List.count_eq_zero.mpr fun hmem => ?_
      have := hphase _ hmem
      simp [Action.isBackendPhase] at this
    rw [hz]
    by_cases hres : inp.event = Event.windowResize <;>
      simp [iterPrefix, hres]

/-- A dispatch environment whose callback semantics calls `quit` (C4
witness). -/
def envQuit : DispatchEnv :=
  { menubarOnEvent := fun m _ => (EventResult.ignored, m)
    screenOnEvent := fun s _ => (EventResult.ignored, s)
    sem := fun _ s => s.quit }

/-- A context whose global table binds the `'q'` key (C4 witness). -/
def stateQuitBound : State :=
  State.new.add_global_callback (Event.char 'q') 0

/-- The backend stream for the C4 witness: a `'q'` press, then one more
event the loop must never poll. -/
def streamQuit : List IterInput :=
  [⟨(80, 24), Event.char 'q'⟩, ⟨(80, 24), Event.char 'x'⟩]

theorem claim4_quit_semantics_witness :
    stateQuitBound.run envQuit streamQuit =
      ((stateQuitBound.dispatch envQuit (Event.char 'q')).1,
        iterPrefix ⟨(80, 24), Event.char 'q'⟩ ++
          (stateQuitBound.dispatch envQuit (Event.char 'q')).2) ∧
    (stateQuitBound.run envQuit streamQuit).2.count Action.draw = 1 :=
  ⟨(claim4_quit_semantics envQuit stateQuitBound ⟨(80, 24), Event.char 'q'⟩
      [⟨(80, 24), Event.char 'x'⟩] rfl rfl).1,
   (claim4_quit_semantics envQuit stateQuitBound ⟨(80, 24), Event.char 'q'⟩
      [⟨(80, 24), Event.char 'x'⟩] rfl rfl).2.2.2⟩

/-- C9: when the polled event is the window-resize signal, the iteration's
trace is layout (against the freshly queried size), draw, poll, then the
backend clear — before any dispatch action (none of which is a backend
phase) and before everything the loop does next; and when the loop
continues, the next iteration opens with a layout against the size the
backend reports for that iteration. -/
theorem claim9_resize_handling (env : DispatchEnv) (c : State)
    (inp : IterInput) (rest : List IterInput) (h1 : c.running = true)
    (h2 : inp.event = Event.windowResize) :
    (c.run env (inp :: rest)).2 =
      [Action.layout inp.size, Action.draw, Action.poll Event.windowResize,
        Action.clear] ++ ((c.dispatch env inp.event).2 ++
          ((c.dispatch env inp.event).1.run env rest).2) ∧
    (∀ a ∈ (c.dispatch env inp.event).2, a.isBackendPhase = false) ∧
    (∀ inp2 rest2, rest = inp2 :: rest2 →
      (c.dispatch env inp.event).1.running = true →
      ((c.dispatch env inp.event).1.run env rest).2.head? =
        some (Action.layout inp2.size)) := by
  refine ⟨?_, dispatch_no_backendPhase env c inp.event, ?_⟩
  · rw [run_cons env c inp rest h1]
    simp [iterPrefix, h2]
  · intro inp2 rest2 hr hrun2
    subst hr
    rw [run_cons env _ inp2 rest2 hrun2]
    simp [iterPrefix]

/-- The backend stream for the C9 witness: a resize at size 80×24, then a
refresh tick at the new size 100×30. -/
def streamResize : List IterInput :=
  [⟨(80, 24), Event.windowResize⟩, ⟨(100, 30), Event.refresh⟩]

theorem claim9_resize_handling_witness :
    (State.new.run envIgnore streamResize).2 =
      [Action.layout (80, 24), Action.draw,
        Action.poll Event.windowResize, Action.clear] ++
        ((State.new.dispatch envIgnore Event.windowResize).2 ++
          ((State.new.dispatch envIgnore Event.windowResize).1.run envIgnore
            [⟨(100, 30), Event.refresh⟩]).2) ∧
    ((State.new.dispatch envIgnore Event.windowResize).1.run envIgnore
        [⟨(100, 30), Event.refresh⟩]).2.head? =
      some (Action.layout (100, 30)) :=
  ⟨(claim9_resize_handling envIgnore State.new ⟨(80, 24), Event.windowResize⟩
      [⟨(100, 30), Event.refresh⟩] rfl rfl).1,
   (claim9_resize_handling envIgnore State.new ⟨(80, 24), Event.windowResize⟩
      [⟨(100, 30), Event.refresh⟩] rfl rfl).2.2
     ⟨(100, 30), Event.refresh⟩ [] rfl rfl⟩

end Cursive
